import Mathlib

/-!
Verification of the XTB/xStation 5 API client (`src/brokers/xtb/x_api_client.js`
and its companions `xapi_constants.js`, `src/events/events.ts`).

The development shallowly embeds the client's logic:

* JS strings are embedded as `List Char` (`JSStr`), so that every string
  operation used by the code (`trim`, `split('\n\n')`, `lastIndexOf`) is a
  structurally recursive, kernel-evaluable Lean function mirroring the
  ECMAScript semantics.
* The per-connection frame parser `_parseResponse` becomes the pure step
  function `parseStep : buffer → chunk → frames × buffer`.
* The event dispatch performed on each parsed frame becomes `processFrame`.
* The client object's mutable private fields become the record `ClientState`;
  each method body becomes a pure function from `ClientState` to a result
  record that also carries the observable effects (socket sends, socket
  closes, raised errors, awaited event names).
-/

namespace XAPI

/-! ## JS strings and the frame parser (`_parseResponse`, lines 220-244) -/

/-- A JavaScript string, embedded as its list of characters. -/
abbrev JSStr := List Char

/-- Whitespace as recognised by `String.prototype.trim` (restricted to the
ASCII whitespace characters that can occur in this wire protocol). -/
def isWS (c : Char) : Bool :=
  c = ' ' || c = '\t' || c = '\n' || c = '\r'

/-- Embeds `String.prototype.trim`: drop leading and trailing whitespace. -/
def trimJS (s : JSStr) : JSStr :=
  ((s.dropWhile isWS).reverse.dropWhile isWS).reverse

/-- Scanner for `String.prototype.split('\n\n')`: cut at every
non-overlapping occurrence of the two-character separator, left to right. -/
def splitNNAux : JSStr → JSStr → List JSStr
  | [], acc => [acc.reverse]
  | '\n' :: '\n' :: rest, acc => acc.reverse :: splitNNAux rest []
  | c :: rest, acc => splitNNAux rest (c :: acc)

/-- Embeds `s.split('\n\n')`.  Like in JS, splitting the empty string yields
`[""]`, never the empty list. -/
def splitNN (s : JSStr) : List JSStr := splitNNAux s []

/-- Helper for `lastIndexOf('\n\n')`: scan the string recording the index of
the most recent position at which `"\n\n"` occurs (occurrences may overlap,
exactly as for `String.prototype.lastIndexOf`). -/
def lastNNAux : JSStr → Nat → Int → Int
  | [], _, best => best
  | c :: rest, i, best =>
      lastNNAux rest (i + 1)
        (if c = '\n' && rest.head? = some '\n' then (i : Int) else best)

/-- Embeds `s.lastIndexOf('\n\n')`, returning `-1` when there is no occurrence. -/
def lastNN (s : JSStr) : Int := lastNNAux s 0 (-1)

/-- The parser's frame-boundary test on the newly received chunk:
`rcvd.lastIndexOf('\n\n') === rcvd.length - 2`.  Note that for a chunk of
length 1 with no occurrence this compares `-1` with `-1` and holds. -/
def endsBoundary (rcvd : JSStr) : Bool :=
  lastNN rcvd = (rcvd.length : Int) - 2

/-- One step of `_parseResponse` at the string level: combine the stored
remainder with the received chunk, trim, split on `"\n\n"`; if the chunk
passes the boundary test the remainder is empty and every segment is handed
to `JSON.parse`, otherwise the last segment is held back as the new
remainder.  (The `typeof remainder === 'undefined'` throw in the source is
dead code: `split` always returns at least one segment, so `pop()` never
yields `undefined`.)  Returns the segments passed to `JSON.parse` and the
new stored remainder. -/
def parseStep (buf rcvd : JSStr) : List JSStr × JSStr :=
  let responses := splitNN (trimJS (buf ++ rcvd))
  if endsBoundary rcvd then (responses, [])
  else (responses.dropLast, (responses.getLast?.getD []))

/-- Feed a sequence of chunks through `parseStep`, starting from a stored
remainder, accumulating every segment handed to `JSON.parse`. -/
def feedChunks (buf : JSStr) (chunks : List JSStr) : List JSStr × JSStr :=
  chunks.foldl
    (fun acc c =>
      let step := parseStep acc.2 c
      (acc.1 ++ step.1, step.2))
    ([], buf)

/-- The wire image of a sequence of frames: each frame body followed by the
`"\n\n"` terminator. -/
def frameConcat (frames : List JSStr) : JSStr :=
  (frames.map (fun f => f ++ ['\n', '\n'])).flatten

/-! ## Constants (`xapi_constants.js`)

The constants object frozen in `src/brokers/xtb/xapi_constants.js` defines
the tag strings below.  It does **not** define `ERROR_PREFIX` or `LOGOUT`,
although `x_api_client.js` reads both; those two lookups therefore yield
JavaScript `undefined`, embedded here as `none`. -/

namespace XAPIConstants

def LOGIN : String := "login"
def STREAM_BALANCE : String := "streamBalance"
def STREAM_CANDLES : String := "streamCandles"
def STREAM_KEEP_ALIVE : String := "streamKeepAlive"
def STREAM_NEWS : String := "streamNews"
def STREAM_PROFITS : String := "streamProfits"
def STREAM_TICK_PRICES : String := "streamTickPrices"
def STREAM_TRADES : String := "streamTrades"
def STREAM_TRADE_STATUS : String := "streamTradeStatus"
def STREAM_PING : String := "streamPing"
def ALL_SYMBOLS : String := "allSymbols"
def CALENDAR : String := "calendar"
def CHART_LAST_REQUEST : String := "chartLastRequest"
def CHART_RANGE_REQUEST : String := "chartRangeRequest"
def COMMISSION_DEF : String := "commissionDef"
def CURRENT_USER_DATA : String := "currentUserData"
def IBS_HISTORY : String := "ibsHistory"
def MARGIN_LEVEL : String := "marginLevel"
def MARGIN_TRADE : String := "marginTrade"
def NEWS : String := "news"
def PROFIT_CALCULATION : String := "profitCalculation"
def SERVER_TIME : String := "serverTime"
def STEP_RULES : String := "stepRules"
def SYMBOL : String := "symbol"
def TICK_PRICES : String := "tickPrices"
def TRADE_RECORDS : String := "tradeRecords"
def TRADES : String := "trades"
def TRADES_HISTORY : String := "tradesHistory"
def TRADING_HOURS : String := "tradingHours"
def VERSION : String := "version"
def PING : String := "ping"
def TRADE_TRANSACTION : String := "tradeTransaction"
def TRADE_TRANSACTION_STATUS : String := "tradeTransactionStatus"

/-- Lookup of `XAPIConstants.ERROR_PREFIX`: the property is absent from the
frozen constants object, so the access evaluates to `undefined`. -/
def ERROR_PREFIX_lookup : Option String := none

/-- Lookup of `XAPIConstants.LOGOUT`: likewise absent, hence `undefined`. -/
def LOGOUT_lookup : Option String := none

end XAPIConstants

/-- ECMAScript string concatenation `x + s` where `x` may be `undefined`:
`undefined` is coerced to the string `"undefined"`. -/
def jsPlusStr (x : Option String) (s : String) : String :=
  (match x with
   | some t => t
   | none => "undefined") ++ s

/-! ## Event dispatch on a parsed frame (`_parseResponse`, lines 229-243) -/

/-- Shape of a decoded broker response frame.  `α` is the type of the
`returnData` payload (opaque to the dispatch logic). -/
structure Response (α : Type) where
  status : Bool
  customTag : String
  returnData : α
  streamSessionId : String
  errorCode : String
  errorDescr : String

/-- The `detail` carried by a dispatched `CustomEvent`: either a success
payload, the login session identifier, or the full error response object. -/
inductive Detail (α : Type) where
  | ret : α → Detail α
  | session : String → Detail α
  | errObj : Response α → Detail α

/-- A dispatched `CustomEvent`: its `type` (name) and its `detail`. -/
structure Event (α : Type) where
  type : String
  detail : Detail α

/-- The event name used for a failed frame:
`XAPIConstants.ERROR_PREFIX + responseObj.customTag`.  Since the constants
module defines no `ERROR_PREFIX`, this is `'undefined' + customTag`. -/
def errorEventName (tag : String) : String :=
  jsPlusStr XAPIConstants.ERROR_PREFIX_lookup tag

/-- The `console.warn` text produced for a failed frame (note the missing
space between the two template fragments, as in the source). -/
def warnMsg {α : Type} (r : Response α) : String :=
  "Call with customTag " ++ r.customTag ++ "Failed: " ++ r.errorDescr ++
    " (code: " ++ r.errorCode ++ ")"

/-- Dispatch of one parsed frame (the loop body of `_parseResponse`):
returns the list of dispatched events and of emitted `console.warn`
messages.  On success one event named after the echoed `customTag` carries
`returnData` (the stream session id for the login tag); on failure one
event named `errorEventName customTag` carries the whole response object
and a warning is logged. -/
def processFrame {α : Type} (r : Response α) : List (Event α) × List String :=
  if r.status then
    let returnData : Detail α :=
      if r.customTag = XAPIConstants.LOGIN then .session r.streamSessionId
      else .ret r.returnData
    ([⟨r.customTag, returnData⟩], [])
  else
    ([⟨errorEventName r.customTag, .errObj r⟩], [warnMsg r])

/-- Embeds `EventTarget2.once(eventName)` (from `src/events/events.ts`) resolves on
the first dispatched event whose type equals `eventName` exactly. -/
def onceResolves {α : Type} (eventName : String) (e : Event α) : Bool :=
  e.type == eventName

/-! ## Chart rescaling (`_processChartRequest`, lines 252-263) -/

/-- A rate record of a chart reply (typedef `RateInfoRecord`); prices are
embedded as rationals.  The field `open` is `open_` because `open` is a
Lean keyword. -/
structure RateInfoRecord where
  symbol : String
  open_ : ℚ
  close : ℚ
  high : ℚ
  low : ℚ
  ctm : Int
  ctmString : String
  vol : ℚ
  deriving DecidableEq

/-- A chart reply (typedef `ChartInfo`). -/
structure ChartInfo where
  digits : Nat
  rateInfos : List RateInfoRecord

/-- Embeds `_processChartRequest`: for each rate record, in order, set `symbol` to
the requested symbol and divide the four OHLC fields by `10 ** digits`. -/
def _processChartRequest (chartInfo : ChartInfo) (symbol : String) :
    List RateInfoRecord :=
  chartInfo.rateInfos.map fun response =>
    { response with
        symbol := symbol
        close := response.close / (10 ^ chartInfo.digits : ℚ)
        open_ := response.open_ / (10 ^ chartInfo.digits : ℚ)
        high := response.high / (10 ^ chartInfo.digits : ℚ)
        low := response.low / (10 ^ chartInfo.digits : ℚ) }

/-- Embeds `getChartLastRequest` from its correlated reply onwards: the awaited
`chartInfo` is handed to `_processChartRequest` with the requested symbol. -/
def getChartLastRequest_processReply (chartInfo : ChartInfo) (symbol : String) :
    List RateInfoRecord :=
  _processChartRequest chartInfo symbol

/-- Embeds `getChartRangeRequest` from its correlated reply onwards. -/
def getChartRangeRequest_processReply (chartInfo : ChartInfo) (symbol : String) :
    List RateInfoRecord :=
  _processChartRequest chartInfo symbol

/-! ## Transaction status check (`tradeTransactionStatus`, lines 840-851) -/

/-- A transaction-status reply (typedef `TradeStatus`). -/
structure TradeStatus where
  ask : ℚ
  bid : ℚ
  price : ℚ
  customComment : String
  message : String
  order : Int
  requestStatus : Int
  deriving DecidableEq

/-- Embeds `tradeTransactionStatus` from its correlated reply onwards: if
`response.ask !== response.bid` an error reporting both values is thrown;
otherwise the reply is returned with `price` overwritten by `ask`.  The
thrown error is embedded as `.error (ask, bid)`, the pair of values the
message interpolates. -/
def tradeTransactionStatus_processReply (response : TradeStatus) :
    Except (ℚ × ℚ) TradeStatus :=
  if response.ask ≠ response.bid then
    .error (response.ask, response.bid)
  else
    .ok { response with price := response.ask }

/-! ## Client state (`XApiClient` private fields) -/

/-- A JSON-ish value occurring in an outbound payload. -/
inductive JValue where
  | str : String → JValue
  | num : ℚ → JValue
  | bool : Bool → JValue
  | arr : List JValue → JValue
  | obj : List (String × JValue) → JValue

/-- An outbound payload object: an insertion-ordered list of fields, as
produced by a JS object literal followed by `Object.assign`. -/
abbrev Payload := List (String × JValue)

/-- Embeds `Map.prototype.get`: the value stored at the first (and, in a
JS `Map`, only) entry for the key. -/
def mapGet {κ α : Type} [DecidableEq κ] : List (κ × α) → κ → Option α
  | [], _ => none
  | (k', v) :: rest, k => if k' = k then some v else mapGet rest k

/-- Embeds `Map.prototype.has`. -/
def mapHas {κ α : Type} [DecidableEq κ] (m : List (κ × α)) (k : κ) : Bool :=
  (mapGet m k).isSome

/-- Embeds `Map.prototype.set`: update the value in place when the key
exists (keeping its position in the insertion order), otherwise append the
new entry. -/
def mapSet {κ α : Type} [DecidableEq κ] : List (κ × α) → κ → α → List (κ × α)
  | [], k, v => [(k, v)]
  | (k', v') :: rest, k, v =>
      if k' = k then (k, v) :: rest else (k', v') :: mapSet rest k v

/-- Embeds `Map.prototype.delete` (dropping only the bool return value). -/
def mapDelete {κ α : Type} [DecidableEq κ] : List (κ × α) → κ → List (κ × α)
  | [], _ => []
  | (k', v') :: rest, k =>
      if k' = k then mapDelete rest k else (k', v') :: mapDelete rest k

/-- Embeds `Object.assign(base, args)`: copy each field of `args`, in order, onto
`base`, overwriting existing keys in place. -/
def objAssign (base args : Payload) : Payload :=
  args.foldl (fun acc kv => mapSet acc kv.1 kv.2) base

/-- The mutable private state of one `XApiClient` instance together with the
`#eventsListened` set of its `EventTarget2` emitter.  Sockets are identified
by the `Nat` at which they were allocated (`nextSocket` counts up). -/
structure ClientState where
  isLoggedIn : Bool
  sockets : List (String × Nat)
  data : List (Nat × JSStr)
  eventsListened : List String
  streamSessionId : String
  nextSocket : Nat

/-- The state produced by the constructor: logged out, no sockets, no
buffers, no listeners.  (`#streamSessionId` is uninitialised in the source;
it is embedded as the empty string.) -/
def initialState : ClientState :=
  { isLoggedIn := false
    sockets := []
    data := []
    eventsListened := []
    streamSessionId := ""
    nextSocket := 0 }

/-- The synchronous, observable outcome of running one client method up to
its first suspension point: the successor state, the frames written to
sockets, the sockets closed, the errors raised (thrown or carried by a
rejected promise), and the event names a one-shot `once` waiter was
registered for. -/
structure Effects where
  state : ClientState
  sends : List (Nat × Payload)
  closes : List Nat
  errors : List String
  awaits : List String

/-- Outcome of `_streamOperation`: `subscribed` records whether the
`for await (... of emitter.on(tag))` consumer loop actually started (it
does not when the method returned early or the tag was already in the
emitter's `#eventsListened` set). -/
structure StreamOut where
  state : ClientState
  sends : List (Nat × Payload)
  errors : List String
  subscribed : Bool

/-- Outcome of `_stopStreaming`, including its boolean return value. -/
structure StopOut where
  state : ClientState
  sends : List (Nat × Payload)
  closes : List Nat
  result : Bool

/-- Embeds `_connectSocket(name)`: return the existing socket registered under
`name` (logging and changing nothing), or allocate a fresh socket, register
it under `name` and give it an empty receive buffer. -/
def _connectSocket (st : ClientState) (name : String) : ClientState × Nat :=
  match mapGet st.sockets name with
  | some socket => (st, socket)
  | none =>
      let socket := st.nextSocket
      ({ st with
          sockets := mapSet st.sockets name socket
          data := mapSet st.data socket []
          nextSocket := socket + 1 }, socket)

/-- Embeds `_callOperation(customTag, operationName, args)`: check `isLoggedIn`
(throwing `'Not logged in'` otherwise), build
`{command, customTag, arguments?}` — the `arguments` field is included only
for a non-empty `args` object, and a `customTag` read from a missing
constant (JS `undefined`) is omitted by `JSON.stringify` — look up the
`'operation'` socket (throwing if absent), send the payload, and await the
first event named `operationName` (the argument of `emitter.once`). -/
def callPayload (customTag : Option String) (operationName : String)
    (args : Payload) : Payload :=
  [("command", .str operationName)] ++
    (match customTag with
     | some t => [("customTag", .str t)]
     | none => []) ++
    (if args.isEmpty then [] else [("arguments", .obj args)])

/-- Embeds the send-and-await part of `_callOperation` (see `callPayload`
for the frame it writes). -/
def _callOperation (st : ClientState) (customTag : Option String)
    (operationName : String) (args : Payload) : Effects :=
  if !st.isLoggedIn then
    ⟨st, [], [], ["Not logged in"], []⟩
  else
    match mapGet st.sockets "operation" with
    | none => ⟨st, [], [], ["Could not find socket"], []⟩
    | some socket =>
        ⟨st, [(socket, callPayload customTag operationName args)], [], [],
          [operationName]⟩

/-- Embeds `_streamOperation(customTag, command, args)`: check `isLoggedIn`; return
immediately when a socket is already registered under `customTag`; otherwise
connect a dedicated socket, register it (again) under the tag, send
`{command, customTag}` merged with a non-empty `args`, and start consuming
`emitter.on(customTag)` — which registers `customTag` in `#eventsListened`
unless it is already there, in which case the consumer loop ends at once. -/
def subscribePayload (customTag command : String) (args : Payload) :
    Payload :=
  if args.isEmpty then
    [("command", .str command), ("customTag", .str customTag)]
  else
    objAssign [("command", .str command), ("customTag", .str customTag)] args

/-- Embeds the connect-register-send-subscribe part of `_streamOperation`
(see `subscribePayload` for the frame it writes). -/
def _streamOperation (st : ClientState) (customTag command : String)
    (args : Payload) : StreamOut :=
  if !st.isLoggedIn then
    ⟨st, [], ["Not logged in"], false⟩
  else if mapHas st.sockets customTag then
    ⟨st, [], [], false⟩
  else
    match _connectSocket st customTag with
    | (st1, socket) =>
        if customTag ∈ st1.eventsListened then
          ⟨{ st1 with sockets := mapSet st1.sockets customTag socket },
            [(socket, subscribePayload customTag command args)], [], false⟩
        else
          ⟨{ st1 with
              sockets := mapSet st1.sockets customTag socket
              eventsListened := st1.eventsListened ++ [customTag] },
            [(socket, subscribePayload customTag command args)], [], true⟩

/-- Embeds `_stopStreaming(customTag, stopCommand, args)`: return `false` doing
nothing when no socket is registered under `customTag`; otherwise remove the
tag from the emitter (`off`), send `{command: stopCommand, streamSessionId}`
merged with a non-empty `args`, close the socket, delete the map entry and
return `true`. -/
def stopPayload (stopCommand sessionId : String) (args : Payload) : Payload :=
  if args.isEmpty then
    [("command", .str stopCommand), ("streamSessionId", .str sessionId)]
  else
    objAssign
      [("command", .str stopCommand), ("streamSessionId", .str sessionId)] args

/-- Embeds the unregister-send-close-delete part of `_stopStreaming` (see
`stopPayload` for the frame it writes). -/
def _stopStreaming (st : ClientState) (customTag stopCommand : String)
    (args : Payload) : StopOut :=
  match mapGet st.sockets customTag with
  | none => ⟨st, [], [], false⟩
  | some socket =>
      ⟨{ st with
          eventsListened :=
            st.eventsListened.filter (fun e => !(e = customTag : Bool))
          sockets := mapDelete st.sockets customTag },
        [(socket, stopPayload stopCommand st.streamSessionId args)],
        [socket], true⟩

/-! ## The public operations

Every public method other than `login` either forwards to `_callOperation`
with a fixed tag, operation name and argument object, forwards to
`_streamOperation` with a fixed tag and command, or is `logout`.  Invoking
a method is embedded as running everything the invocation actually
executes: for the subscription methods that hand their async generator to
the caller, that is `_streamOperation`'s body up to its first `yield`
(generator bodies run on first iteration); for the three methods whose
generator is never iterated (`streamTradeStatus`, `streamNews`,
`streamTickPrices`, see `OpCall.streamUnrun`) it is nothing at all. -/

/-- The subscribe payload of `streamTickPrices(symbol, {minArrivalTime = 0,
maxLevel})`. -/
def streamTickPricesArgs (symbol : String) (minArrivalTime maxLevel : ℚ) :
    Payload :=
  [("minArrivalTime", .num minArrivalTime), ("symbol", .str symbol),
   ("maxLevel", .num maxLevel)]

/-- Embeds `streamTickPrices(symbol, options)`: subscribes under the *unsuffixed*
tag `XAPIConstants.STREAM_TICK_PRICES`. -/
def streamTickPrices (st : ClientState) (symbol : String)
    (minArrivalTime maxLevel : ℚ) : StreamOut :=
  _streamOperation st XAPIConstants.STREAM_TICK_PRICES "streamTickPrices"
    (streamTickPricesArgs symbol minArrivalTime maxLevel)

/-- Embeds `stopStreamTickPrices(symbol)`: stops the tag
`` `${XAPIConstants.STREAM_TICK_PRICES}_${symbol}` ``. -/
def stopStreamTickPrices (st : ClientState) (symbol : String) : StopOut :=
  _stopStreaming st (XAPIConstants.STREAM_TICK_PRICES ++ "_" ++ symbol)
    "stopTickPrices" []

/-- Embeds `logout()`: fires `_callOperation(XAPIConstants.LOGOUT, 'logout')`
without awaiting it (its rejection, if any, is unhandled), then
unconditionally clears the login flag, closes and forgets every socket, and
clears the session identifier. -/
def logoutRun (st : ClientState) : Effects :=
  { state :=
      { st with isLoggedIn := false, sockets := [], streamSessionId := "" }
    sends := (_callOperation st XAPIConstants.LOGOUT_lookup "logout" []).sends
    closes := st.sockets.map (·.2)
    errors := (_callOperation st XAPIConstants.LOGOUT_lookup "logout" []).errors
    awaits :=
      (_callOperation st XAPIConstants.LOGOUT_lookup "logout" []).awaits }

/-- The public operations covered by the pre-auth claim: the `get*` calls,
`ping`, `logout`, `tradeTransaction`(`Status`), and the `stream*`
subscriptions.  Each constructor carries the method's parameters. -/
inductive Operation where
  | getAllSymbols
  | getCalendar
  | getChartLastRequest (period start : ℚ) (symbol : String)
  | getChartRangeRequest (start end_ period : ℚ) (symbol : String) (ticks : ℚ)
  | getCommissionDef (tickerSymbol : String) (volume : ℚ)
  | getCurrentUserData
  | getIbsHistory (start end_ : ℚ)
  | getMarginLevel
  | getMarginTrade (symbol : String) (volume : ℚ)
  | getNews (start end_ : ℚ)
  | getProfitCalculation (cmd : ℚ) (symbol : String)
      (volume openPrice closePrice : ℚ)
  | getServerTime
  | getStepRules
  | getSymbol
  | getTickPrices (level : ℚ) (symbols : List String) (timestamp : ℚ)
  | getTradeRecords (orders : List ℚ)
  | getTrades (openedOnly : Bool)
  | getTradesHistory (start end_ : ℚ)
  | getTradingHours (symbols : List String)
  | getVersion
  | ping
  | logout
  | tradeTransaction (cmd : ℚ) (customComment : String)
      (expiration offset order price sl : ℚ) (symbol : String)
      (tp type volume : ℚ)
  | tradeTransactionStatus (order : ℚ)
  | streamBalance
  | streamCandles (symbol : String)
  | streamKeepAlive
  | streamNews
  | streamPing
  | streamProfits
  | streamTickPrices (symbol : String) (minArrivalTime maxLevel : ℚ)
  | streamTradeStatus
  | streamTrades

/-- The shapes a public method body reduces to.  `streamUnrun` marks the
three methods whose `_streamOperation` generator body never executes:
calling an async generator function only creates a suspended generator, so
`streamTradeStatus()` — which calls `this._streamOperation(...)` without
`return` and discards the generator — and `streamNews()` /
`streamTickPrices()` — `async*` wrappers that `return` (not `yield*`) the
inner generator, so consuming the wrapper finishes immediately without
iterating it — never run `_checkLoggedIn`, open no connection, send no
frame and raise no error, under any usage.  The tag, command and argument
object that would have been passed are recorded for reference. -/
inductive OpCall where
  | call (customTag : Option String) (operationName : String) (args : Payload)
  | stream (customTag command : String) (args : Payload)
  | streamUnrun (customTag command : String) (args : Payload)
  | logoutCall

open XAPIConstants in
/-- The body of each public method, read off the source.  (Note the slips
faithfully preserved: `getChartLastRequest` sends the command
`'getCalendar'`; `streamBalance`, `streamCandles` and `streamKeepAlive`
pass the tag and command arguments of `_streamOperation` swapped; and
`streamTradeStatus`, `streamNews` and `streamTickPrices` never iterate the
generator they create, so their `_streamOperation` body never runs.) -/
def Operation.body : Operation → OpCall
  | .getAllSymbols => .call (some ALL_SYMBOLS) "getAllSymbols" []
  | .getCalendar => .call (some CALENDAR) "getCalendar" []
  | .getChartLastRequest period start symbol =>
      .call (some CHART_LAST_REQUEST) "getCalendar"
        [("info", .obj
          [("period", .num period), ("start", .num start),
           ("symbol", .str symbol)])]
  | .getChartRangeRequest start end_ period symbol ticks =>
      .call (some CHART_RANGE_REQUEST) "getChartRangeRequest"
        [("info", .obj
          [("start", .num start), ("end", .num end_), ("period", .num period),
           ("symbol", .str symbol), ("ticks", .num ticks)])]
  | .getCommissionDef tickerSymbol volume =>
      .call (some COMMISSION_DEF) "getCommissionDef"
        [("symbol", .str tickerSymbol), ("volume", .num volume)]
  | .getCurrentUserData => .call (some CURRENT_USER_DATA) "getCurrentUserData" []
  | .getIbsHistory start end_ =>
      .call (some IBS_HISTORY) "getIbsHistory"
        [("end", .num end_), ("start", .num start)]
  | .getMarginLevel => .call (some MARGIN_LEVEL) "getMarginLevel" []
  | .getMarginTrade symbol volume =>
      .call (some MARGIN_TRADE) "getMarginTrade"
        [("symbol", .str symbol), ("volume", .num volume)]
  | .getNews start end_ =>
      .call (some NEWS) "getNews" [("start", .num start), ("end", .num end_)]
  | .getProfitCalculation cmd symbol volume openPrice closePrice =>
      .call (some PROFIT_CALCULATION) "getProfitCalculation"
        [("cmd", .num cmd), ("symbol", .str symbol), ("volume", .num volume),
         ("openPrice", .num openPrice), ("closePrice", .num closePrice)]
  | .getServerTime => .call (some SERVER_TIME) "getServerTime" []
  | .getStepRules => .call (some STEP_RULES) "getStepRules" []
  | .getSymbol => .call (some SYMBOL) "getSymbol" []
  | .getTickPrices level symbols timestamp =>
      .call (some TICK_PRICES) "getTickPrices"
        [("level", .num level), ("symbols", .arr (symbols.map .str)),
         ("timestamp", .num timestamp)]
  | .getTradeRecords orders =>
      .call (some TRADE_RECORDS) "getTradeRecords"
        [("orders", .arr (orders.map .num))]
  | .getTrades openedOnly =>
      .call (some TRADES) "getTrades" [("openedOnly", .bool openedOnly)]
  | .getTradesHistory start end_ =>
      .call (some TRADES_HISTORY) "getTradesHistory"
        [("start", .num start), ("end", .num end_)]
  | .getTradingHours symbols =>
      .call (some TRADING_HOURS) "getTradingHours"
        [("symbols", .arr (symbols.map .str))]
  | .getVersion => .call (some VERSION) "getVersion" []
  | .ping => .call (some PING) "ping" []
  | .logout => .logoutCall
  | .tradeTransaction cmd customComment expiration offset order price sl
      symbol tp type volume =>
      .call (some TRADE_TRANSACTION) "tradeTransaction"
        [("tradeTransInfo", .obj
          [("cmd", .num cmd), ("customComment", .str customComment),
           ("expiration", .num expiration), ("offset", .num offset),
           ("order", .num order), ("price", .num price), ("sl", .num sl),
           ("symbol", .str symbol), ("tp", .num tp), ("type", .num type),
           ("volume", .num volume)])]
  | .tradeTransactionStatus order =>
      .call (some TRADE_TRANSACTION_STATUS) "tradeTransactionStatus"
        [("order", .num order)]
  | .streamBalance => .stream "getBalance" STREAM_BALANCE []
  | .streamCandles symbol =>
      .stream "getCandles" STREAM_CANDLES [("symbol", .str symbol)]
  | .streamKeepAlive => .stream "keepAlive" STREAM_KEEP_ALIVE []
  | .streamNews => .streamUnrun STREAM_NEWS "getNews" []
  | .streamPing => .stream STREAM_PING "ping" []
  | .streamProfits => .stream STREAM_PROFITS "getProfits" []
  | .streamTickPrices symbol minArrivalTime maxLevel =>
      .streamUnrun STREAM_TICK_PRICES "streamTickPrices"
        (streamTickPricesArgs symbol minArrivalTime maxLevel)
  | .streamTradeStatus => .streamUnrun STREAM_TRADE_STATUS "getTradeStatus" []
  | .streamTrades => .stream STREAM_TRADES "getTrades" []

/-- Run one public operation from a given state: everything its invocation
(and, for the caller-iterated subscription generators, the first pull)
actually executes.  A `streamUnrun` method executes nothing: no state
change, no send, no close, no error, no waiter. -/
def invoke (st : ClientState) (o : Operation) : Effects :=
  match o.body with
  | .call tag name args => _callOperation st tag name args
  | .stream tag cmd args =>
      ⟨(_streamOperation st tag cmd args).state,
        (_streamOperation st tag cmd args).sends, [],
        (_streamOperation st tag cmd args).errors, []⟩
  | .streamUnrun _ _ _ => ⟨st, [], [], [], []⟩
  | .logoutCall => logoutRun st

/-- The public `stopStream*` methods, each forwarding to `_stopStreaming`
with its fixed tag and stop command (`stopStreamCandles` ignores its
`symbol` parameter; `stopStreamTickPrices` suffixes the tag with the
symbol). -/
inductive StopOperation where
  | stopStreamBalance
  | stopStreamCandles (symbol : String)
  | stopStreamKeepAlive
  | stopStreamNews
  | stopStreamProfits
  | stopStreamTickPrices (symbol : String)
  | stopStreamTradeStatus
  | stopStreamTrades

open XAPIConstants in
/-- Run one `stopStream*` method. -/
def invokeStop (st : ClientState) (o : StopOperation) : StopOut :=
  match o with
  | .stopStreamBalance => _stopStreaming st STREAM_BALANCE "stopBalance" []
  | .stopStreamCandles _ => _stopStreaming st STREAM_CANDLES "stopCandles" []
  | .stopStreamKeepAlive =>
      _stopStreaming st STREAM_KEEP_ALIVE "stopKeepAlive" []
  | .stopStreamNews => _stopStreaming st STREAM_NEWS "stopNews" []
  | .stopStreamProfits => _stopStreaming st STREAM_PROFITS "stopProfits" []
  | .stopStreamTickPrices symbol => stopStreamTickPrices st symbol
  | .stopStreamTradeStatus =>
      _stopStreaming st STREAM_TRADE_STATUS "stopTradeStatus" []
  | .stopStreamTrades => _stopStreaming st STREAM_TRADES "stopTrades" []

/-! ## Login and transport callbacks -/

/-- The synchronous prefix of `login()`: connect (or reuse) the
`'operation'` socket and send the login payload.  The method then races the
success and error events. -/
def login_start (st : ClientState) (username password : String) :
    ClientState × List (Nat × Payload) :=
  let cs := _connectSocket st "operation"
  (cs.1,
    [(cs.2,
      [("command", .str "login"),
       ("arguments", .obj
         [("userId", .str username), ("password", .str password)]),
       ("customTag", .str XAPIConstants.LOGIN)])])

/-- The continuation of `login()` when the success event wins the race: the
session identifier is stored and the login flag set. -/
def login_success (st : ClientState) (sid : String) : ClientState :=
  { st with streamSessionId := sid, isLoggedIn := true }

/-- The socket `onclose` handler (normal close): forget the socket's map
entry and its receive buffer. -/
def socketClosed (st : ClientState) (name : String) (socket : Nat) :
    ClientState :=
  { st with
      sockets := mapDelete st.sockets name
      data := mapDelete st.data socket }

/-- The socket `onmessage` handler: run one parser step on the socket's
stored buffer and the received chunk, keeping the new remainder (the
dispatched events do not touch the client state). -/
def receiveChunk (st : ClientState) (socket : Nat) (buf chunk : JSStr) :
    ClientState :=
  { st with data := mapSet st.data socket (parseStep buf chunk).2 }

/-- One transition of a client instance: a public operation, a
`stopStream*` call, the two phases of `login`, a transport close, or a
received chunk. -/
inductive Step : ClientState → ClientState → Prop where
  | op (st : ClientState) (o : Operation) : Step st (invoke st o).state
  | stop (st : ClientState) (o : StopOperation) :
      Step st (invokeStop st o).state
  | loginStart (st : ClientState) (username password : String) :
      Step st (login_start st username password).1
  | loginSuccess (st : ClientState) (sid : String) :
      Step st (login_success st sid)
  | closed (st : ClientState) (name : String) (socket : Nat) :
      Step st (socketClosed st name socket)
  | received (st : ClientState) (socket : Nat) (buf chunk : JSStr) :
      mapGet st.data socket = some buf →
      Step st (receiveChunk st socket buf chunk)

/-- The states a client instance can reach from construction. -/
inductive Reachable : ClientState → Prop where
  | init : Reachable initialState
  | step {st st' : ClientState} : Reachable st → Step st st' → Reachable st'

/-- Each tag has at most one registered connection: the socket map's keys
are pairwise distinct. -/
def NodupKeys (sockets : List (String × Nat)) : Prop :=
  (sockets.map Prod.fst).Nodup

/-! ## Lemmas about the embedded `Map` operations -/

theorem mapHas_false_iff {κ α : Type} [DecidableEq κ] (m : List (κ × α))
    (k : κ) : mapHas m k = false ↔ mapGet m k = none := by
  unfold mapHas
  cases mapGet m k <;> simp

theorem mapGet_mapSet_self {κ α : Type} [DecidableEq κ] (m : List (κ × α))
    (k : κ) (v : α) : mapGet (mapSet m k v) k = some v := by
  induction m with
  | nil => simp [mapSet, mapGet]
  | cons p rest ih =>
      obtain ⟨k', v'⟩ := p
      by_cases h : k' = k
      · simp [mapSet, mapGet, h]
      · simp [mapSet, mapGet, h, ih]

theorem mapGet_mapSet_ne {κ α : Type} [DecidableEq κ] (m : List (κ × α))
    (k k' : κ) (v : α) (h : k' ≠ k) :
    mapGet (mapSet m k v) k' = mapGet m k' := by
  induction m with
  | nil => simp [mapSet, mapGet, Ne.symm h]
  | cons p rest ih =>
      obtain ⟨k'', v''⟩ := p
      by_cases hk : k'' = k
      · subst hk
        simp [mapSet, mapGet, Ne.symm h, h]
      · by_cases hk' : k'' = k'
        · simp [mapSet, mapGet, hk, hk', h]
        · simp [mapSet, mapGet, hk, hk', ih]

theorem mem_keys_mapSet {κ α : Type} [DecidableEq κ] (m : List (κ × α))
    (k a : κ) (v : α) : a ∈ (mapSet m k v).map Prod.fst →
    a ∈ m.map Prod.fst ∨ a = k := by
  induction m with
  | nil =>
      intro h
      right
      simpa [mapSet] using h
  | cons p rest ih =>
      obtain ⟨k', v'⟩ := p
      intro h
      by_cases hk : k' = k
      · rw [show mapSet ((k', v') :: rest) k v = (k, v) :: rest by
            simp [mapSet, hk]] at h
        rw [List.map_cons, List.mem_cons] at h
        rcases h with h | h
        · right; exact h
        · left; rw [List.map_cons, List.mem_cons]; right; exact h
      · rw [show mapSet ((k', v') :: rest) k v = (k', v') :: mapSet rest k v by
            simp [mapSet, hk]] at h
        rw [List.map_cons, List.mem_cons] at h
        rcases h with h | h
        · left; rw [List.map_cons, List.mem_cons]; left; exact h
        · rcases ih h with h' | h'
          · left; rw [List.map_cons, List.mem_cons]; right; exact h'
          · right; exact h'

theorem nodupKeys_mapSet {κ α : Type} [DecidableEq κ] (m : List (κ × α))
    (k : κ) (v : α) (h : (m.map Prod.fst).Nodup) :
    ((mapSet m k v).map Prod.fst).Nodup := by
  induction m with
  | nil => simp [mapSet]
  | cons p rest ih =>
      obtain ⟨k', v'⟩ := p
      rw [List.map_cons, List.nodup_cons] at h
      by_cases hk : k' = k
      · subst hk
        simpa [mapSet, List.nodup_cons] using h
      · rw [show mapSet ((k', v') :: rest) k v =
              (k', v') :: mapSet rest k v by simp [mapSet, hk]]
        rw [List.map_cons, List.nodup_cons]
        refine ⟨fun hmem => ?_, ih h.2⟩
        rcases mem_keys_mapSet rest k k' v hmem with h' | h'
        · exact h.1 h'
        · exact hk h'

theorem keys_mapDelete_sublist {κ α : Type} [DecidableEq κ]
    (m : List (κ × α)) (k : κ) :
    ((mapDelete m k).map Prod.fst).Sublist (m.map Prod.fst) := by
  induction m with
  | nil => simp [mapDelete]
  | cons p rest ih =>
      obtain ⟨k', v'⟩ := p
      by_cases hk : k' = k
      · simpa [mapDelete, hk] using ih.cons k'
      · simpa [mapDelete, hk] using ih.cons₂ k'

theorem nodupKeys_mapDelete {κ α : Type} [DecidableEq κ] (m : List (κ × α))
    (k : κ) (h : (m.map Prod.fst).Nodup) :
    ((mapDelete m k).map Prod.fst).Nodup :=
  h.sublist (keys_mapDelete_sublist m k)

/-! ## Lemmas about the client's step functions -/

theorem connectSocket_isLoggedIn (st : ClientState) (name : String) :
    (_connectSocket st name).1.isLoggedIn = st.isLoggedIn := by
  unfold _connectSocket
  split <;> rfl

theorem connectSocket_nodup (st : ClientState) (name : String)
    (h : NodupKeys st.sockets) : NodupKeys (_connectSocket st name).1.sockets := by
  unfold _connectSocket
  split
  · exact h
  · exact nodupKeys_mapSet _ _ _ h

theorem callOperation_state (st : ClientState) (tag : Option String)
    (name : String) (args : Payload) :
    (_callOperation st tag name args).state = st := by
  unfold _callOperation
  split
  · rfl
  · split <;> rfl

theorem streamOperation_nodup (st : ClientState) (tag cmd : String)
    (args : Payload) (h : NodupKeys st.sockets) :
    NodupKeys (_streamOperation st tag cmd args).state.sockets := by
  unfold _streamOperation
  split
  · exact h
  · split
    · exact h
    · split
      next st1 socket heq =>
        have h1 : NodupKeys st1.sockets := by
          have h2 := connectSocket_nodup st tag h
          rw [heq] at h2
          exact h2
        split <;> exact nodupKeys_mapSet _ _ _ h1

theorem stopStreaming_nodup (st : ClientState) (tag cmd : String)
    (args : Payload) (h : NodupKeys st.sockets) :
    NodupKeys (_stopStreaming st tag cmd args).state.sockets := by
  unfold _stopStreaming
  split
  · exact h
  · exact nodupKeys_mapDelete _ _ h

theorem invoke_nodup (st : ClientState) (o : Operation)
    (h : NodupKeys st.sockets) : NodupKeys (invoke st o).state.sockets := by
  unfold invoke
  split
  · rw [callOperation_state]; exact h
  · exact streamOperation_nodup _ _ _ _ h
  · exact h
  · simp [logoutRun, NodupKeys]

theorem invokeStop_nodup (st : ClientState) (o : StopOperation)
    (h : NodupKeys st.sockets) : NodupKeys (invokeStop st o).state.sockets := by
  cases o <;> exact stopStreaming_nodup _ _ _ _ h

theorem reachable_nodup (st : ClientState) (h : Reachable st) :
    NodupKeys st.sockets := by
  induction h with
  | init => simp [initialState, NodupKeys]
  | step _ hstep ih =>
      cases hstep with
      | op o => exact invoke_nodup _ o ih
      | stop o => exact invokeStop_nodup _ o ih
      | loginStart u p => exact connectSocket_nodup _ "operation" ih
      | loginSuccess sid => exact ih
      | closed name socket => exact nodupKeys_mapDelete _ _ ih
      | received socket buf chunk hbuf => exact ih

theorem streamOperation_subscribed (st : ClientState) (tag cmd : String)
    (args : Payload) (out : StreamOut)
    (he : _streamOperation st tag cmd args = out)
    (hs : out.subscribed = true) :
    mapHas out.state.sockets tag = true ∧
    out.state.isLoggedIn = st.isLoggedIn := by
  unfold _streamOperation at he
  split at he
  · subst he
    simp at hs
  · split at he
    · subst he
      simp at hs
    · split at he
      next st1 socket heq =>
        have hlog : st1.isLoggedIn = st.isLoggedIn := by
          have h2 := connectSocket_isLoggedIn st tag
          rw [heq] at h2
          exact h2
        split at he <;> subst he
        · simp at hs
        · refine ⟨?_, hlog⟩
          simp [mapHas, mapGet_mapSet_self]

theorem trimJS_of_allWS (s : JSStr) (h : s.all isWS = true) :
    trimJS s = [] := by
  have hd : s.dropWhile isWS = [] :=
    List.dropWhile_eq_nil_iff.mpr (fun x hx => (List.all_eq_true.mp h) x hx)
  simp [trimJS, hd]

theorem stopPayload_eq_objAssign (stopCommand sessionId : String)
    (args : Payload) :
    stopPayload stopCommand sessionId args =
      objAssign
        [("command", .str stopCommand), ("streamSessionId", .str sessionId)]
        args := by
  unfold stopPayload
  split
  next h =>
    rw [List.isEmpty_iff.mp h]
    rfl
  next h => rfl

theorem streamTickPrices_tag_ne (symbol : String) :
    XAPIConstants.STREAM_TICK_PRICES ++ "_" ++ symbol ≠
      XAPIConstants.STREAM_TICK_PRICES := by
  intro h
  have hl := congrArg String.length h
  rw [String.length_append, String.length_append] at hl
  rw [show ("_" : String).length = 1 from rfl] at hl
  omega

/-! ## Claim C1 — framing round-trip -/

/-- C1: the framing round-trip property fails on the code.  The two chunks
`"{"` and `"}\n\n"` concatenate to the single well-terminated frame
`"{}\n\n"`, yet the parser — whose boundary test
`rcvd.lastIndexOf('\n\n') === rcvd.length - 2` accepts any one-character
chunk because both sides are `-1` — hands the two partial segments `"{"`
and `"}"` to `JSON.parse` instead of the one frame `"{}"` (and
`JSON.parse('{')` throws).  Frame bodies are written with `\x7b`/`\x7d`
escapes for `{`/`}`. -/
theorem c1_framingRoundTrip_failingInput :
    frameConcat ["\x7b\x7d".data] = "\x7b".data ++ "\x7d\n\n".data ∧
    feedChunks [] ["\x7b".data, "\x7d\n\n".data] =
      (["\x7b".data, "\x7d".data], []) ∧
    ["\x7b".data, "\x7d".data] ≠ ["\x7b\x7d".data] := by
  refine ⟨by decide, by decide, by decide⟩

/-! ## Claim C2 — tag correlation -/

/-- C2: a one-shot call does *not* resolve on the event named its custom
tag.  `getAllSymbols()` invokes
`_callOperation('allSymbols', 'getAllSymbols')`, which registers its
one-shot waiter under the *operation name* `"getAllSymbols"`
(`emitter.once(operationName)`), while `_parseResponse` dispatches the
successful reply under the echoed custom tag `"allSymbols"`; that event
does not resolve the waiter. -/
theorem c2_correlationByOperationName :
    (invoke
        { isLoggedIn := true, sockets := [("operation", 0)], data := [(0, [])],
          eventsListened := [], streamSessionId := "sess", nextSocket := 1 }
        Operation.getAllSymbols).awaits = ["getAllSymbols"] ∧
    (processFrame
        (⟨true, XAPIConstants.ALL_SYMBOLS, (), "", "", ""⟩ : Response Unit)).1 =
      [⟨XAPIConstants.ALL_SYMBOLS, Detail.ret ()⟩] ∧
    onceResolves "getAllSymbols"
      (⟨XAPIConstants.ALL_SYMBOLS, Detail.ret ()⟩ : Event Unit) = false := by
  refine ⟨rfl, rfl, by decide⟩

/-! ## Claim C3 — pre-auth rejection -/

/-- Every public operation invoked while `isLoggedIn` is false performs no
socket write, and raises either exactly the `"Not logged in"` error or —
for the three methods whose subscription generator is never iterated — no
error at all. -/
theorem invoke_preAuth_noWrite (o : Operation) (st : ClientState)
    (h : st.isLoggedIn = false) :
    (invoke st o).sends = [] ∧
    ((invoke st o).errors = ["Not logged in"] ∨ (invoke st o).errors = []) := by
  unfold invoke
  split
  · unfold _callOperation
    simp [h]
  · unfold _streamOperation
    simp [h]
  · exact ⟨rfl, Or.inr rfl⟩
  · unfold logoutRun _callOperation
    simp [h]

/-- C3: the pre-auth rejection claim fails on the code for three of the
stream subscriptions.  `streamTradeStatus()` calls
`this._streamOperation(...)` and discards the async generator, and
`streamNews()`/`streamTickPrices()` are `async*` wrappers that `return`
the inner generator without iterating it, so `_streamOperation`'s body —
and with it `_checkLoggedIn` — never executes: invoked on a logged-out
client they raise no error whatsoever (the no-write half does hold), where
the claim requires an immediate `"Not logged in"` failure.  For contrast,
the last conjuncts show `ping()` and `streamBalance()` failing exactly as
the claim states. -/
theorem c3_preAuthRejection_failingEval :
    initialState.isLoggedIn = false ∧
    invoke initialState Operation.streamTradeStatus =
      ⟨initialState, [], [], [], []⟩ ∧
    invoke initialState Operation.streamNews =
      ⟨initialState, [], [], [], []⟩ ∧
    invoke initialState (Operation.streamTickPrices "EURUSD" 0 1) =
      ⟨initialState, [], [], [], []⟩ ∧
    ([] : List String) ≠ ["Not logged in"] ∧
    (invoke initialState Operation.ping).errors = ["Not logged in"] ∧
    (invoke initialState Operation.ping).sends = [] ∧
    (invoke initialState Operation.streamBalance).errors =
      ["Not logged in"] ∧
    (invoke initialState Operation.streamBalance).sends = [] := by
  refine ⟨rfl, rfl, rfl, rfl, by decide, rfl, rfl, rfl, rfl⟩

/-! ## Claim C4 — at most one subscription per tag -/

/-- C4: (i) in every reachable client state the socket map registers at
most one connection per tag (its keys are pairwise distinct); (ii) calling
`_streamOperation` again for a tag whose subscription is active returns
immediately: the state is unchanged (no second connection), no subscribe
frame is sent, and no second consumer loop starts (no duplicated items). -/
theorem c4_subscriptionAtMostOnePerTag :
    (∀ st : ClientState, Reachable st → NodupKeys st.sockets) ∧
    (∀ (st : ClientState) (tag cmd : String) (args : Payload)
        (cmd' : String) (args' : Payload) (out : StreamOut),
      st.isLoggedIn = true →
      _streamOperation st tag cmd args = out →
      out.subscribed = true →
      _streamOperation out.state tag cmd' args' =
        ⟨out.state, [], [], false⟩) := by
  constructor
  · exact reachable_nodup
  · intro st tag cmd args cmd' args' out h1 he hs
    obtain ⟨hhas, hlog⟩ := streamOperation_subscribed st tag cmd args out he hs
    rw [h1] at hlog
    unfold _streamOperation
    simp [hlog, hhas]

/-- Witness for C4: after construction, login, and a `streamBalance`
subscription, the invariant holds and repeating the subscription for the
same tag is a no-op. -/
theorem c4_subscriptionAtMostOnePerTag_witness :
    NodupKeys
      (login_success (login_start initialState "u" "p").1 "sess").sockets ∧
    _streamOperation
        (_streamOperation
          (login_success (login_start initialState "u" "p").1 "sess")
          "getBalance" "streamBalance" []).state
        "getBalance" "streamBalance" [] =
      ⟨(_streamOperation
          (login_success (login_start initialState "u" "p").1 "sess")
          "getBalance" "streamBalance" []).state, [], [], false⟩ :=
  ⟨c4_subscriptionAtMostOnePerTag.1 _
      (Reachable.step
        (Reachable.step Reachable.init (Step.loginStart initialState "u" "p"))
        (Step.loginSuccess _ "sess")),
    c4_subscriptionAtMostOnePerTag.2 _ "getBalance" "streamBalance" []
      "streamBalance" [] _ rfl rfl (by decide)⟩

/-! ## Claim C5 — stop-streaming behaviour -/

/-- C5: `_stopStreaming(customTag, stopCommand, args)` returns false and
performs no socket write when no connection is registered for the tag;
otherwise it unregisters the tag's event listener, sends exactly one stop
frame `{command: stopCommand, streamSessionId}` merged with `args`, closes
the socket, removes the tag's map entry, and returns true. -/
theorem c5_stopStreaming (st : ClientState) (customTag stopCommand : String)
    (args : Payload) :
    (mapGet st.sockets customTag = none →
      _stopStreaming st customTag stopCommand args = ⟨st, [], [], false⟩) ∧
    (∀ socket : Nat, mapGet st.sockets customTag = some socket →
      _stopStreaming st customTag stopCommand args =
        ⟨{ st with
            eventsListened :=
              st.eventsListened.filter (fun e => !(e = customTag : Bool))
            sockets := mapDelete st.sockets customTag },
          [(socket,
            objAssign
              [("command", .str stopCommand),
               ("streamSessionId", .str st.streamSessionId)] args)],
          [socket], true⟩) := by
  constructor
  · intro h
    unfold _stopStreaming
    simp [h]
  · intro socket h
    unfold _stopStreaming
    simp [h, stopPayload_eq_objAssign]

/-- Witness for C5: stopping an unknown tag on a fresh client, and stopping
a registered `streamBalance` subscription. -/
theorem c5_stopStreaming_witness :
    _stopStreaming initialState "streamBalance" "stopBalance" [] =
      ⟨initialState, [], [], false⟩ ∧
    _stopStreaming
        { isLoggedIn := true, sockets := [("streamBalance", 3)],
          data := [(3, [])], eventsListened := ["streamBalance"],
          streamSessionId := "sid", nextSocket := 4 }
        "streamBalance" "stopBalance" [] =
      ⟨{ isLoggedIn := true, sockets := [], data := [(3, [])],
          eventsListened := [], streamSessionId := "sid", nextSocket := 4 },
        [(3, [("command", .str "stopBalance"),
              ("streamSessionId", .str "sid")])],
        [3], true⟩ :=
  ⟨(c5_stopStreaming initialState "streamBalance" "stopBalance" []).1 rfl,
    (c5_stopStreaming
        { isLoggedIn := true, sockets := [("streamBalance", 3)],
          data := [(3, [])], eventsListened := ["streamBalance"],
          streamSessionId := "sid", nextSocket := 4 }
        "streamBalance" "stopBalance" []).2 3 rfl⟩

/-! ## Claim C6 — failure event naming -/

/-- C6: a failed frame is dispatched as exactly one event carrying the full
error response object, and one `console.warn` is emitted; but because
`xapi_constants.js` defines no `ERROR_PREFIX`, the event's name is the
JS-coerced `'undefined' + customTag` (here `"undefinedping"`), not
`"ERROR_" + customTag` as the claim states. -/
theorem c6_errorEventName_undefined :
    (processFrame
        (⟨false, "ping", (), "", "BE005", "Invalid parameters"⟩ :
          Response Unit)).1 =
      [⟨"undefinedping",
        Detail.errObj ⟨false, "ping", (), "", "BE005", "Invalid parameters"⟩⟩] ∧
    (processFrame
        (⟨false, "ping", (), "", "BE005", "Invalid parameters"⟩ :
          Response Unit)).2 =
      ["Call with customTag pingFailed: Invalid parameters (code: BE005)"] ∧
    errorEventName "ping" ≠ "ERROR_" ++ "ping" := by
  refine ⟨rfl, rfl, by decide⟩

/-! ## Claim C7 — chart rescaling -/

/-- C7: for every chart reply, `getChartLastRequest` and
`getChartRangeRequest` produce the same candle list, one candle per rate
record in the original order; each candle's symbol is the requested symbol,
its OHLC fields are the wire values divided by `10 ^ digits`, and `ctm`,
`ctmString` and `vol` are unchanged. -/
theorem c7_chartRescaling (chartInfo : ChartInfo) (symbol : String) :
    getChartLastRequest_processReply chartInfo symbol =
      getChartRangeRequest_processReply chartInfo symbol ∧
    (getChartLastRequest_processReply chartInfo symbol).length =
      chartInfo.rateInfos.length ∧
    ∀ (i : Nat) (r : RateInfoRecord), chartInfo.rateInfos[i]? = some r →
      (getChartLastRequest_processReply chartInfo symbol)[i]? =
        some ⟨symbol, r.open_ / (10 ^ chartInfo.digits : ℚ),
              r.close / (10 ^ chartInfo.digits : ℚ),
              r.high / (10 ^ chartInfo.digits : ℚ),
              r.low / (10 ^ chartInfo.digits : ℚ), r.ctm, r.ctmString,
              r.vol⟩ := by
  refine ⟨rfl, ?_, ?_⟩
  · simp [getChartLastRequest_processReply, _processChartRequest]
  · intro i r h
    show ((chartInfo.rateInfos.map _)[i]? = _)
    rw [List.getElem?_map, h]
    rfl

/-- Witness for C7: the spec's example — digits 2 and wire OHLC
`12345/12350/12360/12340` for `"EURUSD"` give `123.45/123.5/123.6/123.4`. -/
theorem c7_chartRescaling_witness :
    (getChartLastRequest_processReply
        ⟨2, [⟨"", 12345, 12350, 12360, 12340, 0, "", 1⟩]⟩ "EURUSD")[0]? =
      some ⟨"EURUSD", 123.45, 123.5, 123.6, 123.4, 0, "", 1⟩ := by
  have h := (c7_chartRescaling
      ⟨2, [⟨"", 12345, 12350, 12360, 12340, 0, "", 1⟩]⟩ "EURUSD").2.2 0
      ⟨"", 12345, 12350, 12360, 12340, 0, "", 1⟩ rfl
  rw [h]
  norm_num

/-! ## Claim C8 — transaction-status consistency check -/

/-- C8: given the correlated reply to `tradeTransactionStatus`, if `ask`
differs from `bid` the method throws an error reporting both values and
returns nothing; if they are equal it returns the reply with `price` set to
`ask` and every other field unchanged. -/
theorem c8_transactionStatusCheck (response : TradeStatus) :
    (response.ask ≠ response.bid →
      tradeTransactionStatus_processReply response =
        .error (response.ask, response.bid)) ∧
    (response.ask = response.bid →
      tradeTransactionStatus_processReply response =
        .ok ⟨response.ask, response.bid, response.ask,
             response.customComment, response.message, response.order,
             response.requestStatus⟩) := by
  constructor
  · intro h
    unfold tradeTransactionStatus_processReply
    rw [if_pos h]
  · intro h
    unfold tradeTransactionStatus_processReply
    rw [if_neg (fun hn => hn h)]

/-- Witness for C8: a reply with ask 1 and bid 2 throws `(1, 2)`; a reply
with ask and bid both 5 returns with `price` 5. -/
theorem c8_transactionStatusCheck_witness :
    tradeTransactionStatus_processReply ⟨1, 2, 0, "", "", 7, 0⟩ =
      .error (1, 2) ∧
    tradeTransactionStatus_processReply ⟨5, 5, 0, "c", "m", 7, 1⟩ =
      .ok ⟨5, 5, 5, "c", "m", 7, 1⟩ :=
  ⟨(c8_transactionStatusCheck _).1 (by norm_num),
    (c8_transactionStatusCheck _).2 rfl⟩

/-! ## Claim C9 — parser empty-buffer edge case -/

/-- C9 counterexample: the whitespace-only chunk `"\n"` (with empty stored
remainder) does not yield zero frames — the parser's boundary test accepts
it (`lastIndexOf` and `length - 2` are both `-1`), so the single empty
segment is handed to `JSON.parse`, which raises. -/
theorem c9_parserWhitespace_counterexample :
    (([] ++ ("\n".data : JSStr)).all isWS = true) ∧
    (parseStep [] ("\n".data)).1 ≠ [] := by
  refine ⟨by decide, by decide⟩

/-- C9 (amended): if the stored remainder combined with the chunk is empty
or whitespace-only *and* the chunk fails the parser's boundary test
(`lastIndexOf('\n\n') ≠ length - 2`), the step parses no JSON, raises no
error and leaves the stored remainder empty; a whitespace chunk passing
that test instead hands one empty segment to `JSON.parse`. -/
theorem c9_parserWhitespace_amended (buf rcvd : JSStr)
    (hws : (buf ++ rcvd).all isWS = true)
    (hb : endsBoundary rcvd = false) :
    parseStep buf rcvd = ([], []) := by
  simp [parseStep, trimJS_of_allWS _ hws, hb, splitNN, splitNNAux]

/-- Witness for amended C9: a chunk of two spaces on an empty stored
remainder yields zero frames and an empty remainder. -/
theorem c9_parserWhitespace_witness : parseStep [] ("  ".data) = ([], []) :=
  c9_parserWhitespace_amended [] ("  ".data) (by decide) (by decide)

/-! ## Claim C10 — tick-price stop/start tag relation -/

/-- C10: `streamTickPrices(s, options)` registers its connection and its
event listener under the unsuffixed tag `"streamTickPrices"`, while
`stopStreamTickPrices(s)` looks up `"streamTickPrices_" + s`; consequently
the stop call finds no connection, performs no socket write, and leaves the
subscription's connection and listener registered. -/
theorem c10_tickPricesStopTagMismatch (st : ClientState) (symbol : String)
    (minArrivalTime maxLevel : ℚ)
    (h1 : st.isLoggedIn = true)
    (h2 : mapGet st.sockets XAPIConstants.STREAM_TICK_PRICES = none)
    (h3 : mapGet st.sockets
        (XAPIConstants.STREAM_TICK_PRICES ++ "_" ++ symbol) = none) :
    mapGet (streamTickPrices st symbol minArrivalTime maxLevel).state.sockets
        XAPIConstants.STREAM_TICK_PRICES = some st.nextSocket ∧
    XAPIConstants.STREAM_TICK_PRICES ∈
      (streamTickPrices st symbol minArrivalTime maxLevel).state.eventsListened ∧
    stopStreamTickPrices
        (streamTickPrices st symbol minArrivalTime maxLevel).state symbol =
      ⟨(streamTickPrices st symbol minArrivalTime maxLevel).state, [], [],
        false⟩ := by
  have hhas : mapHas st.sockets XAPIConstants.STREAM_TICK_PRICES = false :=
    (mapHas_false_iff _ _).mpr h2
  unfold streamTickPrices _streamOperation _connectSocket
  simp only [h1, hhas, h2, Bool.not_true, Bool.false_eq_true, if_false]
  by_cases hmem :
      XAPIConstants.STREAM_TICK_PRICES ∈ st.eventsListened <;>
    · simp only [hmem, if_true, if_false, ite_true, ite_false]
      refine ⟨?_, ?_, ?_⟩
      · exact mapGet_mapSet_self _ _ _
      · first
        | trivial
        | exact List.mem_append_right _ (List.mem_singleton.mpr rfl)
      · unfold stopStreamTickPrices _stopStreaming
        rw [mapGet_mapSet_ne _ _ _ _ (streamTickPrices_tag_ne symbol),
          mapGet_mapSet_ne _ _ _ _ (streamTickPrices_tag_ne symbol), h3]

/-- Witness for C10 on a logged-in client holding only the control socket:
subscribing to tick prices for `"EURUSD"` and then calling the stop method
leaves the subscription in place. -/
theorem c10_tickPricesStopTagMismatch_witness :
    mapGet (streamTickPrices
        { isLoggedIn := true, sockets := [("operation", 0)], data := [(0, [])],
          eventsListened := [], streamSessionId := "sid", nextSocket := 1 }
        "EURUSD" 0 1).state.sockets
      XAPIConstants.STREAM_TICK_PRICES = some 1 ∧
    XAPIConstants.STREAM_TICK_PRICES ∈
      (streamTickPrices
        { isLoggedIn := true, sockets := [("operation", 0)], data := [(0, [])],
          eventsListened := [], streamSessionId := "sid", nextSocket := 1 }
        "EURUSD" 0 1).state.eventsListened ∧
    stopStreamTickPrices
        (streamTickPrices
          { isLoggedIn := true, sockets := [("operation", 0)],
            data := [(0, [])], eventsListened := [], streamSessionId := "sid",
            nextSocket := 1 }
          "EURUSD" 0 1).state "EURUSD" =
      ⟨(streamTickPrices
          { isLoggedIn := true, sockets := [("operation", 0)],
            data := [(0, [])], eventsListened := [], streamSessionId := "sid",
            nextSocket := 1 }
          "EURUSD" 0 1).state, [], [], false⟩ :=
  c10_tickPricesStopTagMismatch
    { isLoggedIn := true, sockets := [("operation", 0)], data := [(0, [])],
      eventsListened := [], streamSessionId := "sid", nextSocket := 1 }
    "EURUSD" 0 1 rfl (by decide) (by decide)

end XAPI
